import Mathlib

/-!
Formal model of `pybond/bond/bond_reconcile.py`: the reconciliation engine
that compares a stored reference observation file with freshly captured
observation lines and decides, via a pluggable strategy (accept, abort,
console, dialog, kdiff3), whether the new lines replace the reference.

The embedding is a shallow one:
* the filesystem is a map from path names to optional file contents
  (a file's content is its list of lines, line endings included, matching
  Python `readlines`/`writelines` semantics);
* user interaction (`_get_user_input` / `_get_user_input_dialog`) and shell
  commands (`_invoke_command` / `os.system`) are oracles supplied in an
  environment; each oracle may also raise an exception, modelling
  `KeyboardInterrupt`/`IOError` and similar escapes from the Python code;
* side effects that matter to the specification (prints, user prompts,
  command invocations, console-loop state dispatch, strategy invocation)
  are recorded in an event trace;
* Python truthiness of the `no_save` argument (`None` and the empty string
  are falsy) is modelled explicitly.
-/

/-- A filesystem: each path holds either a file (its list of lines) or
nothing.  Only regular text files appear in the modelled code. -/
def FS : Type := String → Option (List String)

/-- `open(p, 'w')` followed by `writelines(content)`. -/
def FS.write (fs : FS) (p : String) (content : List String) : FS :=
  fun q => if q = p then some content else fs q

/-- `os.unlink(p)`. -/
def FS.remove (fs : FS) (p : String) : FS :=
  fun q => if q = p then none else fs q

/-- `if os.path.isfile(p): os.unlink(p)` — the guarded removal pattern used
both by the temp-file cleanup and by the reference replacement. -/
def FS.removeIfExists (fs : FS) (p : String) : FS :=
  if (fs p).isSome then FS.remove fs p else fs

/-- Python truthiness of the optional `no_save` string argument: `None`
and `''` are falsy, every other string is truthy.  Every test the source
makes on `no_save` is a plain `if no_save:`. -/
def truthy : Option String → Bool
  | none => false
  | some s => !(s == "")

/-- Observable effects of one reconciliation, in order of occurrence. -/
inductive Event : Type
  /-- `ReconcileTool._print(s)`. -/
  | print (s : String)
  /-- A user prompt (`_get_user_input` or `_get_user_input_dialog`) with
  its before-prompt, after-prompt, displayed content, option labels and
  single-character shortcuts. -/
  | input (before_prompt after_prompt content : String)
      (options single_char_options : List String)
  /-- `ReconcileTool._invoke_command(c)`. -/
  | cmd (c : String)
  /-- The interactive console loop dispatching on a state/response value. -/
  | state (s : String)
  /-- `reconcile` delegating to the selected strategy's `invoke_tool`. -/
  | invokeTool
deriving DecidableEq, Repr

/-- Exceptions escaping an oracle call (`KeyboardInterrupt` from input,
`IOError` from a missing merged file, ...).  The code never inspects the
exception, so a single constructor suffices. -/
def Err : Type := Unit

/-- The ambient environment of one reconciliation: the user-input oracle
(covering both the console and the dialog backends of the user-interaction
port) and the shell-command oracle.  A command receives the filesystem and
may change it (kdiff3 writes the merged output file); its integer result is
the process exit code. -/
structure Env : Type where
  ui : String → String → String → List String → List String → Except Err String
  run : String → FS → Except Err (Int × FS)

/- ### Diff engine -/

/-- Length of the longest common prefix of two line sequences. -/
def commonPrefixLen : List String → List String → Nat
  | x :: xs, y :: ys => if x = y then commonPrefixLen xs ys + 1 else 0
  | _, _ => 0

/-- The `@@ -i,n +j,m @@` hunk header line. -/
def hunk_header (k la lb : Nat) : String :=
  "@@ -" ++ toString (k + 1) ++ "," ++ toString la ++
  " +" ++ toString (k + 1) ++ "," ++ toString lb ++ " @@\n"

/-- Model of `difflib.unified_diff(a, b, 'reference', 'current')` (a Python
standard-library collaborator, not repository code).  Its contract, relied
on by `reconcile`: the diff is the empty sequence exactly when the two line
sequences are equal, and otherwise consists of the two file-label header
lines followed by hunk lines.  The model emits a single replacement hunk
after the longest common prefix; the lemma `unified_diff_eq_nil_iff` proves
the emptiness contract. -/
def unified_diff (a b : List String) : List String :=
  let k := commonPrefixLen a b
  match a.drop k, b.drop k with
  | [], [] => []
  | atail, btail =>
    "--- reference\n" :: "+++ current\n" :: hunk_header k atail.length btail.length ::
      (atail.map (fun l => "-" ++ l) ++ btail.map (fun l => "+" ++ l))

/-- `ReconcileTool._compute_diff`. -/
def compute_diff (reference_lines current_lines : List String) : List String :=
  unified_diff reference_lines current_lines

theorem commonPrefixLen_take (a b : List String) :
    a.take (commonPrefixLen a b) = b.take (commonPrefixLen a b) := by
  induction a generalizing b with
  | nil => cases b <;> simp [commonPrefixLen]
  | cons x xs ih =>
    cases b with
    | nil => simp [commonPrefixLen]
    | cons y ys =>
      by_cases hxy : x = y
      · simp [commonPrefixLen, hxy, ih ys]
      · simp [commonPrefixLen, hxy]

theorem commonPrefixLen_self (a : List String) :
    commonPrefixLen a a = a.length := by
  induction a with
  | nil => simp [commonPrefixLen]
  | cons x xs ih => simp [commonPrefixLen, ih]

theorem unified_diff_eq_nil_iff (a b : List String) :
    unified_diff a b = [] ↔ a = b := by
  constructor
  · intro h
    unfold unified_diff at h
    set k := commonPrefixLen a b with hk
    cases ha : a.drop k with
    | cons u us => simp [ha] at h
    | nil =>
      cases hb : b.drop k with
      | cons v vs => simp [ha, hb] at h
      | nil =>
        have ha' : a.take k = a := by
          have := a.take_append_drop k
          rw [ha] at this; simpa using this
        have hb' : b.take k = b := by
          have := b.take_append_drop k
          rw [hb] at this; simpa using this
        rw [← ha', ← hb', hk]
        exact commonPrefixLen_take a b
  · intro h
    subst h
    unfold unified_diff
    simp [commonPrefixLen_self]

theorem compute_diff_eq_nil_iff (a b : List String) :
    compute_diff a b = [] ↔ a = b :=
  unified_diff_eq_nil_iff a b

/- ### User interaction port: console input resolution -/

/-- `ReconcileTool._get_user_input_console`, as a function of the raw string
returned by `raw_input` (the prompt rendering — bracketing the shortcut
character inside each option label and emphasising the default — affects
only what is displayed, not the value returned).  `options[-1]` in the
source presupposes a non-empty option tuple; the model uses the last
element with a dummy fallback for the impossible empty case. -/
def get_user_input_console (options single_char_options : List String)
    (response : String) : String :=
  if response.length = 0 then
    options.getLastD ""
  else if response.length = 1 then
    match (options.zip single_char_options).find? (fun p => p.2 == response) with
    | some p => p.1
    | none => options.getLastD ""
  else
    match options.find? (fun opt => opt == response) with
    | some opt => opt
    | none => options.getLastD ""

theorem getLastD_mem {l : List String} (h : l ≠ []) (d : String) :
    l.getLastD d ∈ l := by
  cases l with
  | nil => exact absurd rfl h
  | cons x xs =>
    rw [List.getLastD_cons]
    exact List.getLastD_mem_cons xs x

/- ### External merge invoker (kdiff3) -/

/-- `ReconcileTool.TMP_FILE_BASE_NAME`. -/
def TMP_FILE_BASE_NAME : String := "/tmp/bond_tmp_"

/-- `ReconcileTool._tmp_file_name`, with the random string drawn by
`_random_string` passed in explicitly. -/
def tmp_file_name (rand flavor : String) : String :=
  TMP_FILE_BASE_NAME ++ rand ++ "." ++ flavor

/-- The view-only (non-merge) kdiff3 command line. -/
def view_cmd (reference_file current_file test_name : String) : String :=
  "kdiff3 \"" ++ reference_file ++ "\" --L1 \"" ++ test_name ++ "_REFERENCE\" \"" ++
    current_file ++ "\" --L2 \"" ++ test_name ++ "_CURRENT\" "

/-- The merge-mode kdiff3 command line, with the `-o` merged-output file. -/
def merge_cmd (reference_file current_file merged_file test_name : String) : String :=
  "kdiff3 -m \"" ++ reference_file ++ "\" --L1 \"" ++ test_name ++ "_REFERENCE\" \"" ++
    current_file ++ "\" --L2 \"" ++ test_name ++ "_CURRENT\"  -o \"" ++ merged_file ++ "\""

/-- The `finally:` block of `ReconcileToolKdiff3.invoke_tool`: best-effort
removal of the current/reference temp files and, when one was named, the
merged temp file. -/
def cleanup_temp (fs : FS) (current_file reference_file : String)
    (merged_file : Option String) : FS :=
  let fs1 := FS.removeIfExists fs current_file
  let fs2 := FS.removeIfExists fs1 reference_file
  match merged_file with
  | some m => FS.removeIfExists fs2 m
  | none => fs2

/-- Result of one strategy `invoke_tool` body that cannot run out of
interaction fuel: either an exception, or `some merged_lines` (accept) /
`none` (reject), together with the filesystem and the event trace. -/
structure MergeResult : Type where
  result : Except Err (Option (List String))
  fs : FS
  events : List Event

/-- `ReconcileToolKdiff3.invoke_tool`.  The three random strings feeding
`_tmp_file_name` are passed in (`rCurr`, `rRef`, `rMerged`); the `finally:`
cleanup runs on every exit path, including oracle exceptions. -/
def kdiff3_invoke_tool (env : Env) (rCurr rRef rMerged : String) (fs : FS)
    (test_name : String) (reference_lines current_lines unified_diff : List String)
    (no_save : Option String) : MergeResult :=
  let current_file := tmp_file_name rCurr "curr"
  let reference_file := tmp_file_name rRef "ref"
  let fs := FS.write fs current_file current_lines
  let fs := FS.write fs reference_file reference_lines
  if truthy no_save then
    let before_prompt := "Encountered failures while running test " ++ test_name ++ ":"
    let after_prompt := "Still want to start kdiff3?"
    let content := no_save.getD ""
    let ev0 : List Event := [.input before_prompt after_prompt content ["yes", "no"] ["y", "n"]]
    match env.ui before_prompt after_prompt content ["yes", "no"] ["y", "n"] with
    | .error e =>
      { result := .error e, fs := cleanup_temp fs current_file reference_file none,
        events := ev0 }
    | .ok response =>
      if response ≠ "yes" then
        { result := .ok none, fs := cleanup_temp fs current_file reference_file none,
          events := ev0 }
      else
        let c := view_cmd reference_file current_file test_name
        match env.run c fs with
        | .error e =>
          { result := .error e, fs := cleanup_temp fs current_file reference_file none,
            events := ev0 ++ [.cmd c] }
        | .ok (_, fs2) =>
          { result := .ok none, fs := cleanup_temp fs2 current_file reference_file none,
            events := ev0 ++ [.cmd c] }
  else
    let merged_file := tmp_file_name rMerged "merged"
    let c := merge_cmd reference_file current_file merged_file test_name
    match env.run c fs with
    | .error e =>
      { result := .error e,
        fs := cleanup_temp fs current_file reference_file (some merged_file),
        events := [.cmd c] }
    | .ok (code, fs2) =>
      if code = 0 then
        match fs2 merged_file with
        | none =>
          -- `open(merged_file, 'r')` raises when the tool exited 0 without
          -- writing the merged file; the exception skips the prompt.
          { result := .error (),
            fs := cleanup_temp fs2 current_file reference_file (some merged_file),
            events := [.cmd c] }
        | some merged_lines =>
          let message := "Merge successful; saving a new reference file. "
          match env.ui message "" "" ["continue"] ["c"] with
          | .error e =>
            { result := .error e,
              fs := cleanup_temp fs2 current_file reference_file (some merged_file),
              events := [.cmd c, .input message "" "" ["continue"] ["c"]] }
          | .ok _ =>
            { result := .ok (some merged_lines),
              fs := cleanup_temp fs2 current_file reference_file (some merged_file),
              events := [.cmd c, .input message "" "" ["continue"] ["c"]] }
      else
        let message := "Merge unsuccessful; not saving a new reference file. "
        match env.ui message "" "" ["continue"] ["c"] with
        | .error e =>
          { result := .error e,
            fs := cleanup_temp fs2 current_file reference_file (some merged_file),
            events := [.cmd c, .input message "" "" ["continue"] ["c"]] }
        | .ok _ =>
          { result := .ok none,
            fs := cleanup_temp fs2 current_file reference_file (some merged_file),
            events := [.cmd c, .input message "" "" ["continue"] ["c"]] }

theorem removeIfExists_apply_self (fs : FS) (p : String) :
    FS.removeIfExists fs p p = none := by
  unfold FS.removeIfExists FS.remove
  cases h : fs p <;> simp [h]

theorem removeIfExists_apply_none (fs : FS) (p q : String) (h : fs p = none) :
    FS.removeIfExists fs q p = none := by
  unfold FS.removeIfExists FS.remove
  by_cases hpq : p = q
  · subst hpq; cases hq : fs p <;> simp [hq, h]
  · cases hq : fs q <;> simp [hq, hpq, h]

theorem cleanup_temp_current (fs : FS) (c r : String) (m : Option String) :
    cleanup_temp fs c r m c = none := by
  unfold cleanup_temp
  have h1 := removeIfExists_apply_self fs c
  have h2 := removeIfExists_apply_none (FS.removeIfExists fs c) c r h1
  cases m with
  | none => exact h2
  | some mf => exact removeIfExists_apply_none _ c mf h2

theorem cleanup_temp_reference (fs : FS) (c r : String) (m : Option String) :
    cleanup_temp fs c r m r = none := by
  unfold cleanup_temp
  have h2 := removeIfExists_apply_self (FS.removeIfExists fs c) r
  cases m with
  | none => exact h2
  | some mf => exact removeIfExists_apply_none _ r mf h2

theorem cleanup_temp_merged (fs : FS) (c r m : String) :
    cleanup_temp fs c r (some m) m = none := by
  unfold cleanup_temp
  exact removeIfExists_apply_self _ m

/- ### Resolution strategies -/

/-- The five reconcile tools selectable by `ReconcileTool.select`. -/
inductive Strategy : Type
  | accept
  | abort
  | console
  | dialog
  | kdiff3
deriving DecidableEq, Repr

/-- ANSI bold escape, `BOLD_CHAR`. -/
def BOLD_CHAR : String := "\x1b[1m"

/-- ANSI reset escape, `RESET_CHAR`. -/
def RESET_CHAR : String := "\x1b[0m"

/-- `ReconcileTool.get_diff`. -/
def get_diff (ud : List String) : String :=
  if ud.length > 0 then String.join ud else "No differences in observations."

/-- Result of a strategy `invoke_tool` as seen by `reconcile`: `none` when
the interactive loop's fuel runs out (the loop in the source may iterate
unboundedly while the user keeps switching views), otherwise an exception
or the merged-lines outcome. -/
structure InvokeResult : Type where
  result : Option (Except Err (Option (List String)))
  fs : FS
  events : List Event

/-- `ReconcileToolAbort.invoke_tool`: print the diff (unless `no_save` is
truthy) and an abort notice, and reject. -/
def abort_invoke_tool (fs : FS) (test_name : String)
    (unified_diff : List String) (no_save : Option String) : InvokeResult :=
  { result := some (.ok none), fs := fs,
    events :=
      (if truthy no_save then []
       else
        [.print (BOLD_CHAR ++ "Differences in observations for " ++ test_name ++ ":" ++ RESET_CHAR),
         .print (get_diff unified_diff)]) ++
      [.print (BOLD_CHAR ++ "Aborting (reconcile=abort) due to differences for " ++
        test_name ++ RESET_CHAR)] }

/-- `ReconcileToolAccept.invoke_tool`: print the diff (with a
failure-specific header when `no_save` is truthy) and accept
`current_lines`. -/
def accept_invoke_tool (fs : FS) (test_name : String)
    (current_lines unified_diff : List String) (no_save : Option String) : InvokeResult :=
  { result := some (.ok (some current_lines)), fs := fs,
    events :=
      if truthy no_save then
        [.print (BOLD_CHAR ++ "Test " ++ test_name ++
            " exited with failures; observations before failure:" ++ RESET_CHAR),
         -- `''.join(self.get_diff(unified_diff))` joins the characters of an
         -- already-joined string, which is that string itself.
         .print (get_diff unified_diff)]
      else
        [.print (BOLD_CHAR ++ "Differences for " ++ test_name ++ ":" ++ RESET_CHAR),
         .print (get_diff unified_diff),
         .print (BOLD_CHAR ++ "Accepting (reconcile=accept) differences for " ++
            test_name ++ RESET_CHAR)] }

/-- `error_after_prompt` in `ReconcileToolConsole.invoke_tool` (the
`.format(test_name)` applied to it in the source is a no-op: the string has
no placeholder). -/
def error_after_prompt : String := "Saving not available due to errors in the test"

/-- The `while True:` loop of `ReconcileToolConsole.invoke_tool`, with
explicit fuel.  `response` is the loop variable: the state about to be
dispatched on.  Every iteration records a `.state` event for the value it
dispatches on; prompts go through `env.ui` (`_get_user_input` for the
Console variant, `_get_user_input_dialog` for the Dialog variant — both
abstracted by the same oracle).  The `kdiff3` state delegates to
`ReconcileToolKdiff3.invoke_tool` with fresh temp-file names
`rCurr`/`rRef`/`rMerged`.  A response value outside the handled set hits
the source's `assert False` branch, modelled as an exception. -/
def console_loop (env : Env) (rCurr rRef rMerged : String) (test_name : String)
    (reference_lines current_lines unified_diff : List String)
    (no_save : Option String) :
    Nat → FS → String → InvokeResult
  | 0, fs, _ => { result := none, fs := fs, events := [] }
  | fuel + 1, fs, response =>
    let step : InvokeResult :=
      if response = "observations" then
        let before_prompt := "Observations are shown for " ++ test_name ++ ":"
        let after_prompt :=
          if truthy no_save then error_after_prompt
          else "Save new set of observations with these differences for " ++ test_name ++ "?"
        let options : List String :=
          if truthy no_save then ["kdiff3", "diff", "errors", "continue"]
          else ["kdiff3", "diff", "yes", "no"]
        let single_char_opts : List String :=
          if truthy no_save then ["k", "d", "e", "c"] else ["k", "d", "y", "n"]
        let content := String.join current_lines
        match env.ui before_prompt after_prompt content options single_char_opts with
        | .error e =>
          { result := some (.error e), fs := fs,
            events := [.input before_prompt after_prompt content options single_char_opts] }
        | .ok r =>
          let rest := console_loop env rCurr rRef rMerged test_name
            reference_lines current_lines unified_diff no_save fuel fs r
          { result := rest.result, fs := rest.fs,
            events := .input before_prompt after_prompt content options single_char_opts ::
              rest.events }
      else if response = "diff" then
        let before_prompt := "Differences in observations are shown for " ++ test_name ++ ":"
        let after_prompt :=
          if truthy no_save then error_after_prompt
          else "Save new set of observations with these differences for " ++ test_name ++ "?"
        let options : List String :=
          if truthy no_save then ["kdiff3", "observations", "errors", "continue"]
          else ["kdiff3", "observations", "yes", "no"]
        let single_char_opts : List String :=
          if truthy no_save then ["k", "o", "e", "c"] else ["k", "o", "y", "n"]
        let content := get_diff unified_diff
        match env.ui before_prompt after_prompt content options single_char_opts with
        | .error e =>
          { result := some (.error e), fs := fs,
            events := [.input before_prompt after_prompt content options single_char_opts] }
        | .ok r =>
          let rest := console_loop env rCurr rRef rMerged test_name
            reference_lines current_lines unified_diff no_save fuel fs r
          { result := rest.result, fs := rest.fs,
            events := .input before_prompt after_prompt content options single_char_opts ::
              rest.events }
      else if response = "errors" then
        let before_prompt := "Errors are shown for " ++ test_name ++ ":"
        let content := no_save.getD ""
        let options : List String := ["kdiff3", "observations", "diff", "continue"]
        let single_char_opts : List String := ["k", "o", "d", "c"]
        match env.ui before_prompt error_after_prompt content options single_char_opts with
        | .error e =>
          { result := some (.error e), fs := fs,
            events := [.input before_prompt error_after_prompt content options single_char_opts] }
        | .ok r =>
          let rest := console_loop env rCurr rRef rMerged test_name
            reference_lines current_lines unified_diff no_save fuel fs r
          { result := rest.result, fs := rest.fs,
            events := .input before_prompt error_after_prompt content options single_char_opts ::
              rest.events }
      else if response = "kdiff3" then
        let m := kdiff3_invoke_tool env rCurr rRef rMerged fs test_name
          reference_lines current_lines unified_diff no_save
        { result := some m.result, fs := m.fs, events := m.events }
      else if response = "yes" then
        { result := some (.ok (some current_lines)), fs := fs,
          events := [.print (BOLD_CHAR ++ "Accepting differences for " ++ test_name ++ RESET_CHAR)] }
      else if response = "no" then
        { result := some (.ok none), fs := fs,
          events := [.print (BOLD_CHAR ++ "Rejecting differences for " ++ test_name ++ RESET_CHAR)] }
      else if response = "continue" then
        { result := some (.ok none), fs := fs, events := [] }
      else
        -- `assert False, 'Unknown input received!'`
        { result := some (.error ()), fs := fs, events := [] }
    { result := step.result, fs := step.fs, events := .state response :: step.events }

/-- `ReconcileToolConsole.invoke_tool` (also the body used by
`ReconcileToolDialog`, which overrides only the input backend): enter the
loop in state `'observations' if no_save else 'diff'`. -/
def console_invoke_tool (env : Env) (rCurr rRef rMerged : String) (fuel : Nat) (fs : FS)
    (test_name : String) (reference_lines current_lines unified_diff : List String)
    (no_save : Option String) : InvokeResult :=
  console_loop env rCurr rRef rMerged test_name reference_lines current_lines unified_diff
    no_save fuel fs (if truthy no_save then "observations" else "diff")

/-- Dispatch of `invoke_tool` over the strategy hierarchy.  The Dialog
variant shares the Console loop, differing only in which input backend
`_input` uses; both backends are abstracted by `env.ui`. -/
def invoke_tool (strat : Strategy) (env : Env) (rCurr rRef rMerged : String)
    (fuel : Nat) (fs : FS) (test_name : String)
    (reference_lines current_lines unified_diff : List String)
    (no_save : Option String) : InvokeResult :=
  match strat with
  | .accept => accept_invoke_tool fs test_name current_lines unified_diff no_save
  | .abort => abort_invoke_tool fs test_name unified_diff no_save
  | .console => console_invoke_tool env rCurr rRef rMerged fuel fs test_name
      reference_lines current_lines unified_diff no_save
  | .dialog => console_invoke_tool env rCurr rRef rMerged fuel fs test_name
      reference_lines current_lines unified_diff no_save
  | .kdiff3 =>
    let m := kdiff3_invoke_tool env rCurr rRef rMerged fs test_name
      reference_lines current_lines unified_diff no_save
    { result := some m.result, fs := m.fs, events := m.events }

/- ### Reconciliation orchestrator -/

/-- The warning `reconcile` prints when the reference file is missing. -/
def missing_reference_warning (test_name reference_file : String) : String :=
  "WARNING: No reference observation file found for " ++ test_name ++ ": " ++ reference_file

/-- Result of `ReconcileTool.reconcile`: the boolean outcome (or `none` for
interactive-fuel exhaustion / `.error` for an escaped exception), the final
filesystem, and the event trace. -/
structure ReconcileResult : Type where
  result : Option (Except Err Bool)
  fs : FS
  events : List Event

/-- `ReconcileTool.reconcile`: read the reference file (a missing file is a
warning and an empty baseline), compute the unified diff, return `true`
immediately when it is empty, and otherwise delegate to the strategy's
`invoke_tool`; on an accepted outcome, either log that saving is suppressed
(`no_save` truthy) or replace the reference file by delete-then-rewrite. -/
def reconcile (strat : Strategy) (env : Env) (rCurr rRef rMerged : String)
    (fuel : Nat) (fs : FS) (test_name reference_file : String)
    (current_lines : List String) (no_save : Option String) : ReconcileResult :=
  let readEvents : List Event :=
    match fs reference_file with
    | some _ => []
    | none => [.print (missing_reference_warning test_name reference_file)]
  let reference_lines := (fs reference_file).getD []
  let ud := compute_diff reference_lines current_lines
  if ud.length = 0 then
    { result := some (.ok true), fs := fs, events := readEvents }
  else
    let inv := invoke_tool strat env rCurr rRef rMerged fuel fs test_name
      reference_lines current_lines ud no_save
    let events := readEvents ++ Event.invokeTool :: inv.events
    match inv.result with
    | none => { result := none, fs := inv.fs, events := events }
    | some (.error e) => { result := some (.error e), fs := inv.fs, events := events }
    | some (.ok none) => { result := some (.ok false), fs := inv.fs, events := events }
    | some (.ok (some merged_lines)) =>
      if truthy no_save then
        { result := some (.ok true), fs := inv.fs,
          events := events ++
            [.print ("Not saving reference observation file for " ++ test_name ++ ": " ++
              no_save.getD "")] }
      else
        let fs2 := FS.removeIfExists inv.fs reference_file
        { result := some (.ok true), fs := FS.write fs2 reference_file merged_lines,
          events := events ++
            [.print ("Saving updated reference observation file for " ++ test_name)] }

theorem FS.write_apply_self (fs : FS) (p : String) (c : List String) :
    FS.write fs p c p = some c := by
  simp [FS.write]

/- ### Concrete fixtures used by the witness theorems -/

/-- An environment whose user-input oracle always raises (no interaction
available) and whose command oracle reports exit code 0 without touching
the filesystem. -/
def env0 : Env :=
  { ui := fun _ _ _ _ _ => .error (), run := fun _ fs => .ok (0, fs) }

/-- An environment whose user-input oracle always answers `"yes"`. -/
def envYes : Env :=
  { ui := fun _ _ _ _ _ => .ok "yes", run := fun _ fs => .ok (0, fs) }

/-- An empty filesystem. -/
def fs0 : FS := fun _ => none

/-- A filesystem holding one reference file `/obs/ref` with a single
line `a\n`. -/
def fs1 : FS := fun p => if p = "/obs/ref" then some ["a\n"] else none

/- ### Claim theorems -/

/-- C7: for every reference/current pair with identical content (and hence
an empty unified diff), `reconcile` returns true immediately, no strategy's
`invoke_tool` is called, and the filesystem — in particular the reference
file — is unchanged. -/
theorem reconcile_identical_no_strategy (strat : Strategy) (env : Env)
    (rCurr rRef rMerged : String) (fuel : Nat) (fs : FS)
    (test_name reference_file : String) (current_lines : List String)
    (no_save : Option String) (h : fs reference_file = some current_lines) :
    (reconcile strat env rCurr rRef rMerged fuel fs test_name reference_file
        current_lines no_save).result = some (.ok true) ∧
    (reconcile strat env rCurr rRef rMerged fuel fs test_name reference_file
        current_lines no_save).fs = fs ∧
    Event.invokeTool ∉ (reconcile strat env rCurr rRef rMerged fuel fs test_name
        reference_file current_lines no_save).events := by
  have hud : compute_diff current_lines current_lines = [] :=
    (compute_diff_eq_nil_iff _ _).mpr rfl
  simp [reconcile, h, hud]

/-- C7 witness at a concrete input. -/
theorem reconcile_identical_no_strategy_witness :
    fs1 "/obs/ref" = some ["a\n"] ∧
    ((reconcile .abort env0 "R1" "R2" "R3" 0 fs1 "t" "/obs/ref"
        ["a\n"] none).result = some (.ok true) ∧
     (reconcile .abort env0 "R1" "R2" "R3" 0 fs1 "t" "/obs/ref"
        ["a\n"] none).fs = fs1 ∧
     Event.invokeTool ∉ (reconcile .abort env0 "R1" "R2" "R3" 0 fs1 "t" "/obs/ref"
        ["a\n"] none).events) :=
  ⟨rfl, reconcile_identical_no_strategy .abort env0 "R1" "R2" "R3" 0 fs1 "t" "/obs/ref"
    ["a\n"] none rfl⟩

/-- C1: for every non-empty diff handled by the Accept strategy,
`reconcile` returns true; when `no_save` is not truthy the reference file
afterwards contains exactly `current_lines`, and when it is truthy the
whole filesystem — in particular the reference file — is byte-for-byte
unchanged (nothing is persisted). -/
theorem reconcile_accept_spec (env : Env) (rCurr rRef rMerged : String)
    (fuel : Nat) (fs : FS) (test_name reference_file : String)
    (current_lines : List String) (no_save : Option String)
    (hdiff : compute_diff ((fs reference_file).getD []) current_lines ≠ []) :
    (reconcile .accept env rCurr rRef rMerged fuel fs test_name reference_file
        current_lines no_save).result = some (.ok true) ∧
    (truthy no_save = false →
      (reconcile .accept env rCurr rRef rMerged fuel fs test_name reference_file
          current_lines no_save).fs reference_file = some current_lines) ∧
    (truthy no_save = true →
      (reconcile .accept env rCurr rRef rMerged fuel fs test_name reference_file
          current_lines no_save).fs = fs) := by
  have hlen : ¬ (compute_diff ((fs reference_file).getD []) current_lines).length = 0 := by
    simpa [List.length_eq_zero] using hdiff
  by_cases hns : truthy no_save <;>
    simp [reconcile, invoke_tool, accept_invoke_tool, hlen, hns, FS.write]

/-- C1 witness at a concrete input (both `no_save` modes). -/
theorem reconcile_accept_spec_witness :
    (compute_diff ((fs1 "/obs/ref").getD []) ["b\n"] ≠ [] ∧
      ((reconcile .accept env0 "R1" "R2" "R3" 0 fs1 "t" "/obs/ref"
          ["b\n"] none).result = some (.ok true) ∧
       (truthy none = false →
        (reconcile .accept env0 "R1" "R2" "R3" 0 fs1 "t" "/obs/ref"
            ["b\n"] none).fs "/obs/ref" = some ["b\n"]) ∧
       (truthy none = true →
        (reconcile .accept env0 "R1" "R2" "R3" 0 fs1 "t" "/obs/ref"
            ["b\n"] none).fs = fs1))) ∧
    (compute_diff ((fs1 "/obs/ref").getD []) ["b\n"] ≠ [] ∧
      ((reconcile .accept env0 "R1" "R2" "R3" 0 fs1 "t" "/obs/ref"
          ["b\n"] (some "crashed")).result = some (.ok true) ∧
       (truthy (some "crashed") = false →
        (reconcile .accept env0 "R1" "R2" "R3" 0 fs1 "t" "/obs/ref"
            ["b\n"] (some "crashed")).fs "/obs/ref" = some ["b\n"]) ∧
       (truthy (some "crashed") = true →
        (reconcile .accept env0 "R1" "R2" "R3" 0 fs1 "t" "/obs/ref"
            ["b\n"] (some "crashed")).fs = fs1))) := by
  have hdiff : compute_diff ((fs1 "/obs/ref").getD []) ["b\n"] ≠ [] := by
    rw [Ne, compute_diff_eq_nil_iff]
    decide
  exact ⟨⟨hdiff, reconcile_accept_spec env0 "R1" "R2" "R3" 0 fs1 "t" "/obs/ref"
      ["b\n"] none hdiff⟩,
    ⟨hdiff, reconcile_accept_spec env0 "R1" "R2" "R3" 0 fs1 "t" "/obs/ref"
      ["b\n"] (some "crashed") hdiff⟩⟩

/-- C8: for every non-empty diff handled by the Abort strategy, `reconcile`
returns false and the reference file's content on disk is unchanged (in
fact the whole filesystem is unchanged). -/
theorem reconcile_abort_spec (env : Env) (rCurr rRef rMerged : String)
    (fuel : Nat) (fs : FS) (test_name reference_file : String)
    (current_lines : List String) (no_save : Option String)
    (hdiff : compute_diff ((fs reference_file).getD []) current_lines ≠ []) :
    (reconcile .abort env rCurr rRef rMerged fuel fs test_name reference_file
        current_lines no_save).result = some (.ok false) ∧
    (reconcile .abort env rCurr rRef rMerged fuel fs test_name reference_file
        current_lines no_save).fs = fs := by
  have hlen : ¬ (compute_diff ((fs reference_file).getD []) current_lines).length = 0 := by
    simpa [List.length_eq_zero] using hdiff
  simp [reconcile, invoke_tool, abort_invoke_tool, hlen]

/-- C8 witness at a concrete input. -/
theorem reconcile_abort_spec_witness :
    compute_diff ((fs1 "/obs/ref").getD []) ["b\n"] ≠ [] ∧
    ((reconcile .abort env0 "R1" "R2" "R3" 0 fs1 "t" "/obs/ref"
        ["b\n"] none).result = some (.ok false) ∧
     (reconcile .abort env0 "R1" "R2" "R3" 0 fs1 "t" "/obs/ref"
        ["b\n"] none).fs = fs1) := by
  have hdiff : compute_diff ((fs1 "/obs/ref").getD []) ["b\n"] ≠ [] := by
    rw [Ne, compute_diff_eq_nil_iff]
    decide
  exact ⟨hdiff, reconcile_abort_spec env0 "R1" "R2" "R3" 0 fs1 "t" "/obs/ref"
    ["b\n"] none hdiff⟩

/-- C9: when the reference file does not exist, `reconcile` warns and
treats the reference as empty; with non-empty current lines and the Accept
strategy (saving not suppressed) it returns true and creates the reference
file containing exactly the current lines. -/
theorem reconcile_missing_reference_accept (env : Env) (rCurr rRef rMerged : String)
    (fuel : Nat) (fs : FS) (test_name reference_file : String)
    (current_lines : List String)
    (href : fs reference_file = none) (hcl : current_lines ≠ []) :
    Event.print (missing_reference_warning test_name reference_file) ∈
      (reconcile .accept env rCurr rRef rMerged fuel fs test_name reference_file
        current_lines none).events ∧
    (reconcile .accept env rCurr rRef rMerged fuel fs test_name reference_file
        current_lines none).result = some (.ok true) ∧
    (reconcile .accept env rCurr rRef rMerged fuel fs test_name reference_file
        current_lines none).fs reference_file = some current_lines := by
  have hud : compute_diff [] current_lines ≠ [] := by
    simp only [Ne, compute_diff_eq_nil_iff]
    exact fun h => hcl h.symm
  simp [reconcile, invoke_tool, accept_invoke_tool, hud, href, truthy, FS.write]

/-- C9 witness at a concrete input. -/
theorem reconcile_missing_reference_accept_witness :
    fs0 "/obs/ref" = none ∧ (["x\n"] : List String) ≠ [] ∧
    (Event.print (missing_reference_warning "t" "/obs/ref") ∈
      (reconcile .accept env0 "R1" "R2" "R3" 0 fs0 "t" "/obs/ref"
        ["x\n"] none).events ∧
     (reconcile .accept env0 "R1" "R2" "R3" 0 fs0 "t" "/obs/ref"
        ["x\n"] none).result = some (.ok true) ∧
     (reconcile .accept env0 "R1" "R2" "R3" 0 fs0 "t" "/obs/ref"
        ["x\n"] none).fs "/obs/ref" = some ["x\n"]) :=
  ⟨rfl, by decide,
    reconcile_missing_reference_accept env0 "R1" "R2" "R3" 0 fs0 "t" "/obs/ref"
      ["x\n"] rfl (by decide)⟩

/-- C4: the console user-input resolution is total over any non-empty
option list: empty input yields the last option (the default); a
single-character input is resolved against the shortcuts (first match), a
longer input against the full option labels, and any unmatched input falls
back to the default; the returned value is always one of the supplied
options. -/
theorem get_user_input_console_spec (options single_char_options : List String)
    (response : String) (hne : options ≠ [])
    (hlen : single_char_options.length = options.length) :
    get_user_input_console options single_char_options response ∈ options ∧
    (response = "" →
      get_user_input_console options single_char_options response =
        options.getLastD "") ∧
    (response.length = 1 →
      ∀ p, (options.zip single_char_options).find? (fun q => q.2 == response) = some p →
        get_user_input_console options single_char_options response = p.1) ∧
    (response.length = 1 →
      (options.zip single_char_options).find? (fun q => q.2 == response) = none →
        get_user_input_console options single_char_options response =
          options.getLastD "") ∧
    (response.length > 1 → response ∈ options →
      get_user_input_console options single_char_options response = response) ∧
    (response.length > 1 → response ∉ options →
      get_user_input_console options single_char_options response =
        options.getLastD "") := by
  refine ⟨?_, ?_, ?_, ?_, ?_, ?_⟩
  · unfold get_user_input_console
    by_cases h0 : response.length = 0
    · simp only [h0, if_true]
      exact getLastD_mem hne ""
    · by_cases h1 : response.length = 1
      · simp only [h0, h1, if_false, if_true]
        cases hf : (options.zip single_char_options).find? (fun q => q.2 == response) with
        | none => exact getLastD_mem hne ""
        | some p =>
          have hp := List.mem_of_find?_eq_some hf
          exact (List.of_mem_zip hp).1
      · simp only [h0, h1, if_false]
        cases hf : options.find? (fun opt => opt == response) with
        | none => exact getLastD_mem hne ""
        | some opt => exact List.mem_of_find?_eq_some hf
  · intro h
    subst h
    simp [get_user_input_console]
  · intro h1 p hf
    unfold get_user_input_console
    simp only [h1]
    simp [hf]
  · intro h1 hf
    unfold get_user_input_console
    simp only [h1]
    simp [hf]
  · intro h1 hmem
    unfold get_user_input_console
    have h0 : ¬ response.length = 0 := by omega
    have h1' : ¬ response.length = 1 := by omega
    simp only [h0, h1', if_false]
    cases hf : options.find? (fun opt => opt == response) with
    | none =>
      exfalso
      have := List.find?_eq_none.mp hf response hmem
      simp at this
    | some opt =>
      have := List.find?_some hf
      simpa using this.symm
  · intro h1 hmem
    unfold get_user_input_console
    have h0 : ¬ response.length = 0 := by omega
    have h1' : ¬ response.length = 1 := by omega
    simp only [h0, h1', if_false]
    cases hf : options.find? (fun opt => opt == response) with
    | none => rfl
    | some opt =>
      exfalso
      have heq := List.find?_some hf
      have hm := List.mem_of_find?_eq_some hf
      simp at heq
      exact hmem (heq ▸ hm)

/-- Structural fact: whatever path `ReconcileToolKdiff3.invoke_tool` takes,
its final filesystem is the `finally:` cleanup applied to some intermediate
filesystem, with the merged temp name included exactly when saving is not
suppressed. -/
theorem kdiff3_fs_shape (env : Env) (rCurr rRef rMerged : String) (fs : FS)
    (test_name : String) (reference_lines current_lines unified_diff : List String)
    (no_save : Option String) :
    ∃ fsMid,
      (kdiff3_invoke_tool env rCurr rRef rMerged fs test_name reference_lines
          current_lines unified_diff no_save).fs =
        cleanup_temp fsMid (tmp_file_name rCurr "curr") (tmp_file_name rRef "ref")
          (if truthy no_save then none else some (tmp_file_name rMerged "merged")) := by
  unfold kdiff3_invoke_tool
  by_cases hns : truthy no_save <;>
    simp only [hns, if_true, if_false, Bool.false_eq_true, reduceIte] <;>
    repeat' split
  all_goals exact ⟨_, rfl⟩

/-- C2: after every exit path of the kdiff3 strategy — merge success, merge
failure, declining the view-only prompt, or an exception from a prompt, a
command or the merged-file read — none of the temp files it created exist:
the current and reference temp files are gone unconditionally, and the
merged temp file is gone whenever one was created (merge mode, i.e.
`no_save` not truthy). -/
theorem kdiff3_temp_cleanup (env : Env) (rCurr rRef rMerged : String) (fs : FS)
    (test_name : String) (reference_lines current_lines unified_diff : List String)
    (no_save : Option String) :
    (kdiff3_invoke_tool env rCurr rRef rMerged fs test_name reference_lines
        current_lines unified_diff no_save).fs (tmp_file_name rCurr "curr") = none ∧
    (kdiff3_invoke_tool env rCurr rRef rMerged fs test_name reference_lines
        current_lines unified_diff no_save).fs (tmp_file_name rRef "ref") = none ∧
    (truthy no_save = false →
      (kdiff3_invoke_tool env rCurr rRef rMerged fs test_name reference_lines
          current_lines unified_diff no_save).fs (tmp_file_name rMerged "merged") = none) := by
  obtain ⟨fsMid, hshape⟩ := kdiff3_fs_shape env rCurr rRef rMerged fs test_name
    reference_lines current_lines unified_diff no_save
  refine ⟨?_, ?_, ?_⟩
  · rw [hshape]; exact cleanup_temp_current _ _ _ _
  · rw [hshape]; exact cleanup_temp_reference _ _ _ _
  · intro h
    rw [hshape, h]
    simpa using cleanup_temp_merged fsMid (tmp_file_name rCurr "curr")
      (tmp_file_name rRef "ref") (tmp_file_name rMerged "merged")

/-- C5: in merge mode (`no_save` not truthy) the kdiff3 strategy invokes
the tool with the merge command naming a third temp file for the merged
output; exit code 0 makes it read the merged file's lines and return them
as the accepted outcome, a nonzero exit code yields the rejected outcome,
and in both cases a one-line status message is shown through a prompt whose
only option is `continue`, which must be acknowledged before the call
returns. -/
theorem kdiff3_merge_mode_spec (env : Env) (rCurr rRef rMerged : String) (fs : FS)
    (test_name : String) (reference_lines current_lines unified_diff : List String)
    (no_save : Option String) (hns : truthy no_save = false) :
    Event.cmd (merge_cmd (tmp_file_name rRef "ref") (tmp_file_name rCurr "curr")
        (tmp_file_name rMerged "merged") test_name) ∈
      (kdiff3_invoke_tool env rCurr rRef rMerged fs test_name reference_lines
        current_lines unified_diff no_save).events ∧
    (∀ fs2 merged_lines r,
      env.run (merge_cmd (tmp_file_name rRef "ref") (tmp_file_name rCurr "curr")
          (tmp_file_name rMerged "merged") test_name)
        (FS.write (FS.write fs (tmp_file_name rCurr "curr") current_lines)
          (tmp_file_name rRef "ref") reference_lines) = .ok (0, fs2) →
      fs2 (tmp_file_name rMerged "merged") = some merged_lines →
      env.ui "Merge successful; saving a new reference file. " "" "" ["continue"] ["c"] =
        .ok r →
      (kdiff3_invoke_tool env rCurr rRef rMerged fs test_name reference_lines
          current_lines unified_diff no_save).result = .ok (some merged_lines) ∧
      Event.input "Merge successful; saving a new reference file. " "" ""
          ["continue"] ["c"] ∈
        (kdiff3_invoke_tool env rCurr rRef rMerged fs test_name reference_lines
          current_lines unified_diff no_save).events) ∧
    (∀ code fs2 r,
      env.run (merge_cmd (tmp_file_name rRef "ref") (tmp_file_name rCurr "curr")
          (tmp_file_name rMerged "merged") test_name)
        (FS.write (FS.write fs (tmp_file_name rCurr "curr") current_lines)
          (tmp_file_name rRef "ref") reference_lines) = .ok (code, fs2) →
      code ≠ 0 →
      env.ui "Merge unsuccessful; not saving a new reference file. " "" ""
          ["continue"] ["c"] = .ok r →
      (kdiff3_invoke_tool env rCurr rRef rMerged fs test_name reference_lines
          current_lines unified_diff no_save).result = .ok none ∧
      Event.input "Merge unsuccessful; not saving a new reference file. " "" ""
          ["continue"] ["c"] ∈
        (kdiff3_invoke_tool env rCurr rRef rMerged fs test_name reference_lines
          current_lines unified_diff no_save).events) := by
  unfold kdiff3_invoke_tool
  simp only [hns, Bool.false_eq_true, if_false, reduceIte]
  refine ⟨?_, ?_, ?_⟩
  · repeat' split
    all_goals simp
  · intro fs2 merged_lines r hrun hmerged hui
    simp [hrun, hmerged, hui]
  · intro code fs2 r hrun hcode hui
    simp [hrun, hcode, hui]

/-- C5 witness at a concrete input: an environment whose merge command
writes the merged file and exits 0, and a user who acknowledges. -/
def envMergeOk : Env :=
  { ui := fun _ _ _ _ _ => .ok "continue",
    run := fun _ fs => .ok (0, FS.write fs (tmp_file_name "RM" "merged") ["m\n"]) }

theorem kdiff3_merge_mode_spec_witness :
    truthy none = false ∧
    (Event.cmd (merge_cmd (tmp_file_name "RR" "ref") (tmp_file_name "RC" "curr")
        (tmp_file_name "RM" "merged") "t") ∈
      (kdiff3_invoke_tool envMergeOk "RC" "RR" "RM" fs0 "t" ["a\n"] ["b\n"] ["d"]
        none).events ∧
    (∀ fs2 merged_lines r,
      envMergeOk.run (merge_cmd (tmp_file_name "RR" "ref") (tmp_file_name "RC" "curr")
          (tmp_file_name "RM" "merged") "t")
        (FS.write (FS.write fs0 (tmp_file_name "RC" "curr") ["b\n"])
          (tmp_file_name "RR" "ref") ["a\n"]) = .ok (0, fs2) →
      fs2 (tmp_file_name "RM" "merged") = some merged_lines →
      envMergeOk.ui "Merge successful; saving a new reference file. " "" ""
          ["continue"] ["c"] = .ok r →
      (kdiff3_invoke_tool envMergeOk "RC" "RR" "RM" fs0 "t" ["a\n"] ["b\n"] ["d"]
          none).result = .ok (some merged_lines) ∧
      Event.input "Merge successful; saving a new reference file. " "" ""
          ["continue"] ["c"] ∈
        (kdiff3_invoke_tool envMergeOk "RC" "RR" "RM" fs0 "t" ["a\n"] ["b\n"] ["d"]
          none).events) ∧
    (∀ code fs2 r,
      envMergeOk.run (merge_cmd (tmp_file_name "RR" "ref") (tmp_file_name "RC" "curr")
          (tmp_file_name "RM" "merged") "t")
        (FS.write (FS.write fs0 (tmp_file_name "RC" "curr") ["b\n"])
          (tmp_file_name "RR" "ref") ["a\n"]) = .ok (code, fs2) →
      code ≠ 0 →
      envMergeOk.ui "Merge unsuccessful; not saving a new reference file. " "" ""
          ["continue"] ["c"] = .ok r →
      (kdiff3_invoke_tool envMergeOk "RC" "RR" "RM" fs0 "t" ["a\n"] ["b\n"] ["d"]
          none).result = .ok none ∧
      Event.input "Merge unsuccessful; not saving a new reference file. " "" ""
          ["continue"] ["c"] ∈
        (kdiff3_invoke_tool envMergeOk "RC" "RR" "RM" fs0 "t" ["a\n"] ["b\n"] ["d"]
          none).events)) :=
  ⟨rfl, kdiff3_merge_mode_spec envMergeOk "RC" "RR" "RM" fs0 "t" ["a\n"] ["b\n"] ["d"]
    none rfl⟩

/-- C6: with `no_save` truthy the kdiff3 strategy first asks a yes/no
question (options `yes`, `no` — the last option, `no`, being the default of
the user-interaction port); any answer other than `yes` rejects immediately
without invoking any command, a `yes` answer invokes the view-only
(non-merge) command, and the outcome on this path is never an accepted
content. -/
theorem kdiff3_no_save_spec (env : Env) (rCurr rRef rMerged : String) (fs : FS)
    (test_name : String) (reference_lines current_lines unified_diff : List String)
    (no_save : Option String) (hns : truthy no_save = true) :
    (kdiff3_invoke_tool env rCurr rRef rMerged fs test_name reference_lines
        current_lines unified_diff no_save).events.head? =
      some (Event.input ("Encountered failures while running test " ++ test_name ++ ":")
        "Still want to start kdiff3?" (no_save.getD "") ["yes", "no"] ["y", "n"]) ∧
    (∀ r,
      env.ui ("Encountered failures while running test " ++ test_name ++ ":")
          "Still want to start kdiff3?" (no_save.getD "") ["yes", "no"] ["y", "n"] =
        .ok r →
      r ≠ "yes" →
      (kdiff3_invoke_tool env rCurr rRef rMerged fs test_name reference_lines
          current_lines unified_diff no_save).result = .ok none ∧
      ∀ c, Event.cmd c ∉ (kdiff3_invoke_tool env rCurr rRef rMerged fs test_name
          reference_lines current_lines unified_diff no_save).events) ∧
    (env.ui ("Encountered failures while running test " ++ test_name ++ ":")
          "Still want to start kdiff3?" (no_save.getD "") ["yes", "no"] ["y", "n"] =
        .ok "yes" →
      Event.cmd (view_cmd (tmp_file_name rRef "ref") (tmp_file_name rCurr "curr")
          test_name) ∈
        (kdiff3_invoke_tool env rCurr rRef rMerged fs test_name reference_lines
          current_lines unified_diff no_save).events ∧
      ((kdiff3_invoke_tool env rCurr rRef rMerged fs test_name reference_lines
          current_lines unified_diff no_save).result = .ok none ∨
       (∃ e, (kdiff3_invoke_tool env rCurr rRef rMerged fs test_name reference_lines
          current_lines unified_diff no_save).result = .error e))) ∧
    (∀ merged_lines,
      (kdiff3_invoke_tool env rCurr rRef rMerged fs test_name reference_lines
          current_lines unified_diff no_save).result ≠ .ok (some merged_lines)) := by
  unfold kdiff3_invoke_tool
  simp only [hns, if_true, reduceIte]
  refine ⟨?_, ?_, ?_, ?_⟩
  · repeat' split
    all_goals simp
  · intro r hui hr
    simp [hui, hr]
  · intro hui
    simp only [hui]
    simp only [ne_eq, not_true_eq_false, if_false, reduceIte]
    constructor
    · split <;> simp
    · split <;> simp
  · intro merged_lines
    repeat' split
    all_goals simp

/-- C6 witness at a concrete input (user answers the default `no` path via
an arbitrary non-`yes` response, here the oracle answering `yes` is also
exercised by the theorem's third conjunct). -/
theorem kdiff3_no_save_spec_witness :
    truthy (some "boom") = true ∧
    ((kdiff3_invoke_tool envYes "RC" "RR" "RM" fs0 "t" ["a\n"] ["b\n"] ["d"]
        (some "boom")).events.head? =
      some (Event.input ("Encountered failures while running test " ++ "t" ++ ":")
        "Still want to start kdiff3?" ((some "boom").getD "") ["yes", "no"] ["y", "n"]) ∧
    (∀ r,
      envYes.ui ("Encountered failures while running test " ++ "t" ++ ":")
          "Still want to start kdiff3?" ((some "boom").getD "") ["yes", "no"] ["y", "n"] =
        .ok r →
      r ≠ "yes" →
      (kdiff3_invoke_tool envYes "RC" "RR" "RM" fs0 "t" ["a\n"] ["b\n"] ["d"]
          (some "boom")).result = .ok none ∧
      ∀ c, Event.cmd c ∉ (kdiff3_invoke_tool envYes "RC" "RR" "RM" fs0 "t"
          ["a\n"] ["b\n"] ["d"] (some "boom")).events) ∧
    (envYes.ui ("Encountered failures while running test " ++ "t" ++ ":")
          "Still want to start kdiff3?" ((some "boom").getD "") ["yes", "no"] ["y", "n"] =
        .ok "yes" →
      Event.cmd (view_cmd (tmp_file_name "RR" "ref") (tmp_file_name "RC" "curr") "t") ∈
        (kdiff3_invoke_tool envYes "RC" "RR" "RM" fs0 "t" ["a\n"] ["b\n"] ["d"]
          (some "boom")).events ∧
      ((kdiff3_invoke_tool envYes "RC" "RR" "RM" fs0 "t" ["a\n"] ["b\n"] ["d"]
          (some "boom")).result = .ok none ∨
       (∃ e, (kdiff3_invoke_tool envYes "RC" "RR" "RM" fs0 "t" ["a\n"] ["b\n"] ["d"]
          (some "boom")).result = .error e))) ∧
    (∀ merged_lines,
      (kdiff3_invoke_tool envYes "RC" "RR" "RM" fs0 "t" ["a\n"] ["b\n"] ["d"]
          (some "boom")).result ≠ .ok (some merged_lines))) :=
  ⟨rfl, kdiff3_no_save_spec envYes "RC" "RR" "RM" fs0 "t" ["a\n"] ["b\n"] ["d"]
    (some "boom") rfl⟩

/-- An event is clear of the `errors` state: it is neither the console
loop dispatching on `errors` nor a prompt offering `errors` among its
options. -/
def avoids_errors : Event → Bool
  | .state s => decide (s ≠ "errors")
  | .input _ _ _ options _ => decide ("errors" ∉ options)
  | _ => true

theorem kdiff3_events_avoid_errors (env : Env) (rCurr rRef rMerged : String)
    (fs : FS) (test_name : String)
    (reference_lines current_lines unified_diff : List String)
    (no_save : Option String) (hns : truthy no_save = false) :
    ((kdiff3_invoke_tool env rCurr rRef rMerged fs test_name reference_lines
        current_lines unified_diff no_save).events.all avoids_errors) = true := by
  unfold kdiff3_invoke_tool
  simp only [hns, Bool.false_eq_true, reduceIte]
  repeat' split
  all_goals simp [avoids_errors]

/-- Invariant of the interactive loop in non-suppressed mode: as long as
the user-input oracle only returns supplied options, the loop never
dispatches on the `errors` state and never offers `errors` as an option,
starting from any state other than `errors` itself. -/
theorem console_loop_avoids_errors (env : Env) (rCurr rRef rMerged : String)
    (test_name : String) (reference_lines current_lines unified_diff : List String)
    (no_save : Option String)
    (hui : ∀ b a c opts chars r, env.ui b a c opts chars = .ok r → r ∈ opts)
    (hns : truthy no_save = false) :
    ∀ fuel fs response, response ≠ "errors" →
      ((console_loop env rCurr rRef rMerged test_name reference_lines current_lines
          unified_diff no_save fuel fs response).events.all avoids_errors) = true := by
  intro fuel
  induction fuel with
  | zero =>
    intro fs response _
    simp [console_loop]
  | succ n ih =>
    intro fs response hresp
    unfold console_loop
    simp only [hns, Bool.false_eq_true, reduceIte]
    by_cases h1 : response = "observations"
    · simp only [h1, reduceIte, if_true]
      cases hev : env.ui ("Observations are shown for " ++ test_name ++ ":")
          ("Save new set of observations with these differences for " ++ test_name ++ "?")
          (String.join current_lines) ["kdiff3", "diff", "yes", "no"]
          ["k", "d", "y", "n"] with
      | error e => simp [hev, avoids_errors]
      | ok r =>
        have hr : r ∈ ["kdiff3", "diff", "yes", "no"] := hui _ _ _ _ _ _ hev
        have hrne : r ≠ "errors" := by
          intro h
          rw [h] at hr
          simp at hr
        simp [hev, avoids_errors, ih fs r hrne]
    · simp only [h1, reduceIte, if_false]
      by_cases h2 : response = "diff"
      · simp only [h2, reduceIte, if_true]
        cases hev : env.ui ("Differences in observations are shown for " ++ test_name ++ ":")
            ("Save new set of observations with these differences for " ++ test_name ++ "?")
            (get_diff unified_diff) ["kdiff3", "observations", "yes", "no"]
            ["k", "o", "y", "n"] with
        | error e => simp [hev, avoids_errors]
        | ok r =>
          have hr : r ∈ ["kdiff3", "observations", "yes", "no"] := hui _ _ _ _ _ _ hev
          have hrne : r ≠ "errors" := by
            intro h
            rw [h] at hr
            simp at hr
          simp [hev, avoids_errors, ih fs r hrne]
      · simp only [h2, reduceIte, if_false]
        by_cases h3 : response = "errors"
        · exact absurd h3 hresp
        · simp only [h3, reduceIte, if_false]
          by_cases h4 : response = "kdiff3"
          · simp only [h4, reduceIte, if_true]
            have hk := kdiff3_events_avoid_errors env rCurr rRef rMerged fs test_name
              reference_lines current_lines unified_diff no_save hns
            simp [avoids_errors, hk]
          · simp only [h4, reduceIte, if_false]
            by_cases h5 : response = "yes"
            · simp [h5, avoids_errors]
            · simp only [h5, reduceIte, if_false]
              by_cases h6 : response = "no"
              · simp [h6, avoids_errors]
              · simp only [h6, reduceIte, if_false]
                by_cases h7 : response = "continue"
                · simp [h7, avoids_errors, hresp]
                · simp [h7, avoids_errors, hresp]

/-- C10: in the interactive Console/Dialog strategy with saving not
suppressed, provided the user-input routines only return one of the
supplied options, the state machine never enters the `errors` state: every
recorded event avoids `errors` (no dispatch on it, no option set offering
it), and in particular no `errors` dispatch occurs for any sequence of user
inputs. -/
theorem console_never_enters_errors (env : Env) (rCurr rRef rMerged : String)
    (fuel : Nat) (fs : FS) (test_name : String)
    (reference_lines current_lines unified_diff : List String)
    (no_save : Option String)
    (hui : ∀ b a c opts chars r, env.ui b a c opts chars = .ok r → r ∈ opts)
    (hns : truthy no_save = false) :
    ((console_invoke_tool env rCurr rRef rMerged fuel fs test_name reference_lines
        current_lines unified_diff no_save).events.all avoids_errors) = true ∧
    Event.state "errors" ∉ (console_invoke_tool env rCurr rRef rMerged fuel fs
        test_name reference_lines current_lines unified_diff no_save).events := by
  have hall : ((console_invoke_tool env rCurr rRef rMerged fuel fs test_name
      reference_lines current_lines unified_diff no_save).events.all avoids_errors) =
      true := by
    unfold console_invoke_tool
    simp only [hns, Bool.false_eq_true, reduceIte]
    exact console_loop_avoids_errors env rCurr rRef rMerged test_name reference_lines
      current_lines unified_diff no_save hui hns fuel fs "diff" (by decide)
  refine ⟨hall, fun hmem => ?_⟩
  have := List.all_eq_true.mp hall _ hmem
  simp [avoids_errors] at this

/-- C10 witness at a concrete input. -/
theorem console_never_enters_errors_witness :
    (∀ b a c opts chars r, env0.ui b a c opts chars = .ok r → r ∈ opts) ∧
    truthy none = false ∧
    (((console_invoke_tool env0 "R1" "R2" "R3" 3 fs0 "t" ["a\n"] ["b\n"] ["d"]
        none).events.all avoids_errors) = true ∧
     Event.state "errors" ∉ (console_invoke_tool env0 "R1" "R2" "R3" 3 fs0 "t"
        ["a\n"] ["b\n"] ["d"] none).events) :=
  ⟨fun _ _ _ _ _ _ h => Except.noConfusion h, rfl,
    console_never_enters_errors env0 "R1" "R2" "R3" 3 fs0 "t" ["a\n"] ["b\n"] ["d"]
      none (fun _ _ _ _ _ _ h => Except.noConfusion h) rfl⟩

/-- C3 counterexample: with `no_save` set (`"boom"`), the interactive
loop's first dispatched state is `observations`, not `errors` as claimed. -/
theorem console_initial_state_counterexample :
    (console_invoke_tool env0 "R1" "R2" "R3" 1 fs0 "t" ["a\n"] ["b\n"] ["d"]
        (some "boom")).events.head? ≠ some (Event.state "errors") ∧
    (console_invoke_tool env0 "R1" "R2" "R3" 1 fs0 "t" ["a\n"] ["b\n"] ["d"]
        (some "boom")).events.head? = some (Event.state "observations") := by
  have h : (console_invoke_tool env0 "R1" "R2" "R3" 1 fs0 "t" ["a\n"] ["b\n"] ["d"]
      (some "boom")).events.head? = some (Event.state "observations") := by rfl
  refine ⟨?_, h⟩
  rw [h]
  intro hcontra
  simp at hcontra

/-- C3 (amended): the interactive Console/Dialog loop's initial state is
`observations` when `no_save` is truthy and `diff` when it is not. -/
theorem console_initial_state (env : Env) (rCurr rRef rMerged : String)
    (fuel : Nat) (fs : FS) (test_name : String)
    (reference_lines current_lines unified_diff : List String)
    (no_save : Option String) :
    (console_invoke_tool env rCurr rRef rMerged (fuel + 1) fs test_name
        reference_lines current_lines unified_diff no_save).events.head? =
      some (Event.state (if truthy no_save then "observations" else "diff")) := by
  unfold console_invoke_tool console_loop
  simp

/-- C4 witness at a concrete input (shortcut resolution). -/
theorem get_user_input_console_spec_witness :
    (["kdiff3", "diff", "yes", "no"] : List String) ≠ [] ∧
    (["k", "d", "y", "n"] : List String).length =
      (["kdiff3", "diff", "yes", "no"] : List String).length ∧
    (get_user_input_console ["kdiff3", "diff", "yes", "no"] ["k", "d", "y", "n"] "d" ∈
        (["kdiff3", "diff", "yes", "no"] : List String) ∧
      ("d" = "" →
        get_user_input_console ["kdiff3", "diff", "yes", "no"] ["k", "d", "y", "n"] "d" =
          (["kdiff3", "diff", "yes", "no"] : List String).getLastD "") ∧
      ("d".length = 1 →
        ∀ p, ((["kdiff3", "diff", "yes", "no"] : List String).zip
            ["k", "d", "y", "n"]).find? (fun q => q.2 == "d") = some p →
          get_user_input_console ["kdiff3", "diff", "yes", "no"] ["k", "d", "y", "n"] "d" =
            p.1) ∧
      ("d".length = 1 →
        ((["kdiff3", "diff", "yes", "no"] : List String).zip
            ["k", "d", "y", "n"]).find? (fun q => q.2 == "d") = none →
          get_user_input_console ["kdiff3", "diff", "yes", "no"] ["k", "d", "y", "n"] "d" =
            (["kdiff3", "diff", "yes", "no"] : List String).getLastD "") ∧
      ("d".length > 1 → "d" ∈ (["kdiff3", "diff", "yes", "no"] : List String) →
        get_user_input_console ["kdiff3", "diff", "yes", "no"] ["k", "d", "y", "n"] "d" =
          "d") ∧
      ("d".length > 1 → "d" ∉ (["kdiff3", "diff", "yes", "no"] : List String) →
        get_user_input_console ["kdiff3", "diff", "yes", "no"] ["k", "d", "y", "n"] "d" =
          (["kdiff3", "diff", "yes", "no"] : List String).getLastD "")) :=
  ⟨by decide, by decide,
    get_user_input_console_spec ["kdiff3", "diff", "yes", "no"] ["k", "d", "y", "n"] "d"
      (by decide) (by decide)⟩
